import Mathlib

/-!
Verification of the vertex-buffer subsystem (`src/vertex_buffer.rs`).

The definitions below are a shallow embedding of the Rust source.  Pure
functions become Lean functions; the buffer collaborator (`buffer::Buffer`),
the device context capability query and the fence primitive live in other
files of the repository that are not part of the provided sources, so they
are modelled from the specification (each such definition says so in its
doc comment).  Machine integers (GLuint, usize) are modelled as `Nat`;
overflow plays no role in any of the properties below.
-/

namespace Glium

/-- Scalar kind of an attribute: signed integer, unsigned integer or float. -/
inductive ScalarKind
  | signedInt
  | unsignedInt
  | float
  deriving DecidableEq

/-- The closed enumeration of wire-level attribute encodings, transcribed
from `enum AttributeType` in the source (lines 425-454). -/
inductive AttributeType
  | I8 | I8I8 | I8I8I8 | I8I8I8I8
  | U8 | U8U8 | U8U8U8 | U8U8U8U8
  | I16 | I16I16 | I16I16I16 | I16I16I16I16
  | U16 | U16U16 | U16U16U16 | U16U16U16U16
  | I32 | I32I32 | I32I32I32 | I32I32I32I32
  | U32 | U32U32 | U32U32U32 | U32U32U32U32
  | F32 | F32F32 | F32F32F32 | F32F32F32F32
  deriving DecidableEq

/-- Semantic reading of an `AttributeType`: its scalar kind, bit width and
arity.  This is the meaning the enumeration's constructor names carry. -/
def AttributeType.shape : AttributeType → ScalarKind × Nat × Nat
  | .I8 => (.signedInt, 8, 1)
  | .I8I8 => (.signedInt, 8, 2)
  | .I8I8I8 => (.signedInt, 8, 3)
  | .I8I8I8I8 => (.signedInt, 8, 4)
  | .U8 => (.unsignedInt, 8, 1)
  | .U8U8 => (.unsignedInt, 8, 2)
  | .U8U8U8 => (.unsignedInt, 8, 3)
  | .U8U8U8U8 => (.unsignedInt, 8, 4)
  | .I16 => (.signedInt, 16, 1)
  | .I16I16 => (.signedInt, 16, 2)
  | .I16I16I16 => (.signedInt, 16, 3)
  | .I16I16I16I16 => (.signedInt, 16, 4)
  | .U16 => (.unsignedInt, 16, 1)
  | .U16U16 => (.unsignedInt, 16, 2)
  | .U16U16U16 => (.unsignedInt, 16, 3)
  | .U16U16U16U16 => (.unsignedInt, 16, 4)
  | .I32 => (.signedInt, 32, 1)
  | .I32I32 => (.signedInt, 32, 2)
  | .I32I32I32 => (.signedInt, 32, 3)
  | .I32I32I32I32 => (.signedInt, 32, 4)
  | .U32 => (.unsignedInt, 32, 1)
  | .U32U32 => (.unsignedInt, 32, 2)
  | .U32U32U32 => (.unsignedInt, 32, 3)
  | .U32U32U32U32 => (.unsignedInt, 32, 4)
  | .F32 => (.float, 32, 1)
  | .F32F32 => (.float, 32, 2)
  | .F32F32F32 => (.float, 32, 3)
  | .F32F32F32F32 => (.float, 32, 4)

/-- The Rust host types for which `unsafe impl Attribute for ...` exists in
the source (lines 478-769): each scalar in \x7bi8,u8,i16,u16,i32,u32,f32\x7d,
and for each scalar the tuples and fixed-size arrays of arity 2, 3 and 4.
One constructor per `impl` block. -/
inductive RustAttr
  | i8 | i8_tup2 | i8_arr2 | i8_tup3 | i8_arr3 | i8_tup4 | i8_arr4
  | u8 | u8_tup2 | u8_arr2 | u8_tup3 | u8_arr3 | u8_tup4 | u8_arr4
  | i16 | i16_tup2 | i16_arr2 | i16_tup3 | i16_arr3 | i16_tup4 | i16_arr4
  | u16 | u16_tup2 | u16_arr2 | u16_tup3 | u16_arr3 | u16_tup4 | u16_arr4
  | i32 | i32_tup2 | i32_arr2 | i32_tup3 | i32_arr3 | i32_tup4 | i32_arr4
  | u32 | u32_tup2 | u32_arr2 | u32_tup3 | u32_arr3 | u32_tup4 | u32_arr4
  | f32 | f32_tup2 | f32_arr2 | f32_tup3 | f32_arr3 | f32_tup4 | f32_arr4
  deriving DecidableEq

/-- `Attribute::get_type`, transcribed impl-by-impl from the source
(lines 478-769): the `AttributeType` each host type maps to. -/
def Attribute.get_type : RustAttr → AttributeType
  | .i8 => .I8
  | .i8_tup2 => .I8I8
  | .i8_arr2 => .I8I8
  | .i8_tup3 => .I8I8I8
  | .i8_arr3 => .I8I8I8
  | .i8_tup4 => .I8I8I8I8
  | .i8_arr4 => .I8I8I8I8
  | .u8 => .U8
  | .u8_tup2 => .U8U8
  | .u8_arr2 => .U8U8
  | .u8_tup3 => .U8U8U8
  | .u8_arr3 => .U8U8U8
  | .u8_tup4 => .U8U8U8U8
  | .u8_arr4 => .U8U8U8U8
  | .i16 => .I16
  | .i16_tup2 => .I16I16
  | .i16_arr2 => .I16I16
  | .i16_tup3 => .I16I16I16
  | .i16_arr3 => .I16I16I16
  | .i16_tup4 => .I16I16I16I16
  | .i16_arr4 => .I16I16I16I16
  | .u16 => .U16
  | .u16_tup2 => .U16U16
  | .u16_arr2 => .U16U16
  | .u16_tup3 => .U16U16U16
  | .u16_arr3 => .U16U16U16
  | .u16_tup4 => .U16U16U16U16
  | .u16_arr4 => .U16U16U16U16
  | .i32 => .I32
  | .i32_tup2 => .I32I32
  | .i32_arr2 => .I32I32
  | .i32_tup3 => .I32I32I32
  | .i32_arr3 => .I32I32I32
  | .i32_tup4 => .I32I32I32I32
  | .i32_arr4 => .I32I32I32I32
  | .u32 => .U32
  | .u32_tup2 => .U32U32
  | .u32_arr2 => .U32U32
  | .u32_tup3 => .U32U32U32
  | .u32_arr3 => .U32U32U32
  | .u32_tup4 => .U32U32U32U32
  | .u32_arr4 => .U32U32U32U32
  | .f32 => .F32
  | .f32_tup2 => .F32F32
  | .f32_arr2 => .F32F32
  | .f32_tup3 => .F32F32F32
  | .f32_arr3 => .F32F32F32
  | .f32_tup4 => .F32F32F32F32
  | .f32_arr4 => .F32F32F32F32

/-- The scalar kind, bit width and arity of the HOST type itself, read off
the Rust type (`(i16, i16, i16)` is three 16-bit signed integers, and so
on), independently of `get_type`. -/
def RustAttr.hostShape : RustAttr → ScalarKind × Nat × Nat
  | .i8 => (.signedInt, 8, 1)
  | .i8_tup2 => (.signedInt, 8, 2)
  | .i8_arr2 => (.signedInt, 8, 2)
  | .i8_tup3 => (.signedInt, 8, 3)
  | .i8_arr3 => (.signedInt, 8, 3)
  | .i8_tup4 => (.signedInt, 8, 4)
  | .i8_arr4 => (.signedInt, 8, 4)
  | .u8 => (.unsignedInt, 8, 1)
  | .u8_tup2 => (.unsignedInt, 8, 2)
  | .u8_arr2 => (.unsignedInt, 8, 2)
  | .u8_tup3 => (.unsignedInt, 8, 3)
  | .u8_arr3 => (.unsignedInt, 8, 3)
  | .u8_tup4 => (.unsignedInt, 8, 4)
  | .u8_arr4 => (.unsignedInt, 8, 4)
  | .i16 => (.signedInt, 16, 1)
  | .i16_tup2 => (.signedInt, 16, 2)
  | .i16_arr2 => (.signedInt, 16, 2)
  | .i16_tup3 => (.signedInt, 16, 3)
  | .i16_arr3 => (.signedInt, 16, 3)
  | .i16_tup4 => (.signedInt, 16, 4)
  | .i16_arr4 => (.signedInt, 16, 4)
  | .u16 => (.unsignedInt, 16, 1)
  | .u16_tup2 => (.unsignedInt, 16, 2)
  | .u16_arr2 => (.unsignedInt, 16, 2)
  | .u16_tup3 => (.unsignedInt, 16, 3)
  | .u16_arr3 => (.unsignedInt, 16, 3)
  | .u16_tup4 => (.unsignedInt, 16, 4)
  | .u16_arr4 => (.unsignedInt, 16, 4)
  | .i32 => (.signedInt, 32, 1)
  | .i32_tup2 => (.signedInt, 32, 2)
  | .i32_arr2 => (.signedInt, 32, 2)
  | .i32_tup3 => (.signedInt, 32, 3)
  | .i32_arr3 => (.signedInt, 32, 3)
  | .i32_tup4 => (.signedInt, 32, 4)
  | .i32_arr4 => (.signedInt, 32, 4)
  | .u32 => (.unsignedInt, 32, 1)
  | .u32_tup2 => (.unsignedInt, 32, 2)
  | .u32_arr2 => (.unsignedInt, 32, 2)
  | .u32_tup3 => (.unsignedInt, 32, 3)
  | .u32_arr3 => (.unsignedInt, 32, 3)
  | .u32_tup4 => (.unsignedInt, 32, 4)
  | .u32_arr4 => (.unsignedInt, 32, 4)
  | .f32 => (.float, 32, 1)
  | .f32_tup2 => (.float, 32, 2)
  | .f32_arr2 => (.float, 32, 2)
  | .f32_tup3 => (.float, 32, 3)
  | .f32_arr3 => (.float, 32, 3)
  | .f32_tup4 => (.float, 32, 4)
  | .f32_arr4 => (.float, 32, 4)

/-- The seven supported scalar types. -/
inductive ScalarTy
  | i8 | u8 | i16 | u16 | i32 | u32 | f32
  deriving DecidableEq

/-- The vector arities 2, 3, 4 for which both a tuple impl and an array
impl exist in the source. -/
inductive VecArity
  | two | three | four
  deriving DecidableEq

/-- The tuple impl of a given scalar and arity: `(S, S)`, `(S, S, S)`,
`(S, S, S, S)` (source lines 484-769). -/
def tupleAttr : ScalarTy → VecArity → RustAttr
  | .i8, .two => .i8_tup2
  | .i8, .three => .i8_tup3
  | .i8, .four => .i8_tup4
  | .u8, .two => .u8_tup2
  | .u8, .three => .u8_tup3
  | .u8, .four => .u8_tup4
  | .i16, .two => .i16_tup2
  | .i16, .three => .i16_tup3
  | .i16, .four => .i16_tup4
  | .u16, .two => .u16_tup2
  | .u16, .three => .u16_tup3
  | .u16, .four => .u16_tup4
  | .i32, .two => .i32_tup2
  | .i32, .three => .i32_tup3
  | .i32, .four => .i32_tup4
  | .u32, .two => .u32_tup2
  | .u32, .three => .u32_tup3
  | .u32, .four => .u32_tup4
  | .f32, .two => .f32_tup2
  | .f32, .three => .f32_tup3
  | .f32, .four => .f32_tup4

/-- The array impl of a given scalar and arity: `[S; 2]`, `[S; 3]`,
`[S; 4]` (source lines 490-769). -/
def arrayAttr : ScalarTy → VecArity → RustAttr
  | .i8, .two => .i8_arr2
  | .i8, .three => .i8_arr3
  | .i8, .four => .i8_arr4
  | .u8, .two => .u8_arr2
  | .u8, .three => .u8_arr3
  | .u8, .four => .u8_arr4
  | .i16, .two => .i16_arr2
  | .i16, .three => .i16_arr3
  | .i16, .four => .i16_arr4
  | .u16, .two => .u16_arr2
  | .u16, .three => .u16_arr3
  | .u16, .four => .u16_arr4
  | .i32, .two => .i32_arr2
  | .i32, .three => .i32_arr3
  | .i32, .four => .i32_arr4
  | .u32, .two => .u32_arr2
  | .u32, .three => .u32_arr3
  | .u32, .four => .u32_arr4
  | .f32, .two => .f32_arr2
  | .f32, .three => .f32_arr3
  | .f32, .four => .f32_arr4

/-- Modelled from the spec: the DeviceBuffer owned through `buffer::Buffer`
(the `buffer` module is not among the provided sources).  It carries an
opaque device-object identity, the persistent-mapping usage flag, the
element contents and the per-element byte size. -/
structure Buffer (T : Type) where
  id : Nat
  persistent : Bool
  contents : List T
  elements_size : Nat
  deriving DecidableEq

/-- `Buffer::get_id` — modelled from the spec: the device-assigned handle. -/
def Buffer.get_id (self : Buffer T) : Nat :=
  self.id

/-- `Buffer::is_persistent` — modelled from the spec: whether the buffer
was allocated with persistent mapping. -/
def Buffer.is_persistent (self : Buffer T) : Bool :=
  self.persistent

/-- `Buffer::get_elements_size` — modelled from the spec: bytes between two
consecutive elements. -/
def Buffer.get_elements_size (self : Buffer T) : Nat :=
  self.elements_size

/-- `Buffer::get_elements_count` — modelled from the spec: number of
elements in the buffer. -/
def Buffer.get_elements_count (self : Buffer T) : Nat :=
  self.contents.length

/-- Modelled from the spec: `buffer::Buffer::read` — synchronous full
readback of the buffer contents. -/
def Buffer.read (self : Buffer T) : List T :=
  self.contents

/-- Modelled from the spec: `buffer::Buffer::read_slice` — partial
readback of `size` elements starting at element `offset`; fails (reject,
do not clamp) when `offset + size` exceeds the element count. -/
def Buffer.read_slice (self : Buffer T) (offset size : Nat) : Option (List T) :=
  if self.contents.length < offset + size then
    none
  else
    some ((self.contents.drop offset).take size)

/-- Modelled from the spec: `buffer::Buffer::upload` — replaces
`data.length` elements starting at element `offset`; fails with no effect
(strong exception safety) when `offset + data.length` exceeds the element
count. -/
def Buffer.upload (self : Buffer T) (offset : Nat) (data : List T) : Option (Buffer T) :=
  if self.contents.length < offset + data.length then
    none
  else
    some { self with
           contents := self.contents.take offset ++ data ++
                       self.contents.drop (offset + data.length) }

/-- Modelled from the spec: the fence-publish channel handed out by
`Buffer::add_fence` (the `sync` module is not among the provided sources).
Only its presence or absence matters to the claims. -/
structure Sender where
  chan : Nat
  deriving DecidableEq

/-- Modelled from the spec: `Buffer::add_fence` creates a fresh
completion-fence channel for this buffer. -/
def Buffer.add_fence (self : Buffer T) : Sender :=
  ⟨self.id⟩

/-- Modelled from the spec: the device/context collaborator's capability
query — device version (major, minor), the `GL_ARB_buffer_storage`
extension flag — plus the fresh device-object identity the next allocation
receives. -/
structure Display where
  version : Nat × Nat
  gl_arb_buffer_storage : Bool
  next_id : Nat
  deriving DecidableEq

/-- Modelled from the spec: the ordering on `context::GlVersion(major,
minor)` values — lexicographic on (major, minor). -/
def glVersionLt (a b : Nat × Nat) : Bool :=
  a.1 < b.1 || (a.1 == b.1 && a.2 < b.2)

/-- Modelled from the spec: `buffer::Buffer::new` — allocates a
DeviceBuffer with a fresh identity from the context, uploads `data`
synchronously, and records the usage flag.  The per-element byte size
(`size_of::<T>()` in Rust) is supplied by the caller's vertex-type
description. -/
def Buffer.new (display : Display) (data : List T) (persistent : Bool)
    (elements_size : Nat) : Buffer T :=
  { id := display.next_id
    persistent := persistent
    contents := data
    elements_size := elements_size }

/-- `type VertexFormat` (source line 460): the list of (name, byte-offset,
attribute-type) triples. -/
abbrev VertexFormat := List (String × Nat × AttributeType)

/-- The data the `Vertex` trait supplies for a record type `T`:
`Vertex::build_bindings` and the record stride `size_of::<T>()`. -/
structure VertexType (T : Type) where
  build_bindings : VertexFormat
  elem_size : Nat

/-- `struct VertexBufferAny` (source lines 352-356): the type-erased
owner of the device buffer, its bindings and its element size. -/
structure VertexBufferAny (T : Type) where
  buffer : Buffer T
  bindings : VertexFormat
  elements_size : Nat
  deriving DecidableEq

/-- `struct VertexBuffer<T>` (source lines 92-94): the typed wrapper
embedding a `VertexBufferAny`. -/
structure VertexBuffer (T : Type) where
  buffer : VertexBufferAny T
  deriving DecidableEq

/-- `VertexBuffer::new` (source lines 123-136). -/
def VertexBuffer.new (V : VertexType T) (display : Display) (data : List T) :
    VertexBuffer T :=
  let bindings := V.build_bindings
  let buffer := Buffer.new display data false V.elem_size
  let elements_size := buffer.get_elements_size
  { buffer := { buffer := buffer
                bindings := bindings
                elements_size := elements_size } }

/-- `VertexBuffer::new_dynamic` (source lines 141-154). -/
def VertexBuffer.new_dynamic (V : VertexType T) (display : Display) (data : List T) :
    VertexBuffer T :=
  let bindings := V.build_bindings
  let buffer := Buffer.new display data false V.elem_size
  let elements_size := buffer.get_elements_size
  { buffer := { buffer := buffer
                bindings := bindings
                elements_size := elements_size } }

/-- `VertexBuffer::new_persistent_if_supported` (source lines 167-188):
returns `none` when the version is below 4.4 and the
`gl_arb_buffer_storage` extension is absent, otherwise allocates with the
persistent flag. -/
def VertexBuffer.new_persistent_if_supported (V : VertexType T) (display : Display)
    (data : List T) : Option (VertexBuffer T) :=
  if glVersionLt display.version (4, 4) && !display.gl_arb_buffer_storage then
    none
  else
    let bindings := V.build_bindings
    let buffer := Buffer.new display data true V.elem_size
    let elements_size := buffer.get_elements_size
    some { buffer := { buffer := buffer
                       bindings := bindings
                       elements_size := elements_size } }

/-- Rust's `Option::unwrap`: the value on `Some`, a panic on `None`.  The
panic is modelled as `Except.error`. -/
def rustUnwrap : Option A → Except String A
  | some a => Except.ok a
  | none => Except.error "called unwrap on a None value"

/-- `VertexBuffer::new_persistent` (source lines 162-164): calls
`new_persistent_if_supported` and `unwrap()`s the result. -/
def VertexBuffer.new_persistent (V : VertexType T) (display : Display)
    (data : List T) : Except String (VertexBuffer T) :=
  rustUnwrap (VertexBuffer.new_persistent_if_supported V display data)

/-- `VertexBuffer::read` (source lines 256-258). -/
def VertexBuffer.read (self : VertexBuffer T) : List T :=
  self.buffer.buffer.read

/-- `VertexBuffer::read_slice` (source lines 283-285). -/
def VertexBuffer.read_slice (self : VertexBuffer T) (offset size : Nat) :
    Option (List T) :=
  self.buffer.buffer.read_slice offset size

/-- `VertexBuffer::read_slice_if_supported` (source lines 297-299). -/
def VertexBuffer.read_slice_if_supported (self : VertexBuffer T) (offset size : Nat) :
    Option (List T) :=
  self.buffer.buffer.read_slice offset size

/-- `VertexBuffer::write` (source lines 305-307): delegates to
`Buffer::upload`; the updated buffer replaces the embedded one. -/
def VertexBuffer.write (self : VertexBuffer T) (offset : Nat) (data : List T) :
    Option (VertexBuffer T) :=
  (self.buffer.buffer.upload offset data).map
    (fun b => { buffer := { self.buffer with buffer := b } })

/-- `VertexBuffer::is_persistent` (source lines 312-314). -/
def VertexBuffer.is_persistent (self : VertexBuffer T) : Bool :=
  self.buffer.buffer.is_persistent

/-- `VertexBuffer::get_elements_size` (source lines 317-319). -/
def VertexBuffer.get_elements_size (self : VertexBuffer T) : Nat :=
  self.buffer.elements_size

/-- `VertexBuffer::get_bindings` (source lines 322-324). -/
def VertexBuffer.get_bindings (self : VertexBuffer T) : VertexFormat :=
  self.buffer.bindings

/-- `VertexBuffer::into_vertex_buffer_any` (source lines 327-329). -/
def VertexBuffer.into_vertex_buffer_any (self : VertexBuffer T) : VertexBufferAny T :=
  self.buffer

/-- `impl GlObject for VertexBufferAny` (source lines 389-393). -/
def VertexBufferAny.get_id (self : VertexBufferAny T) : Nat :=
  self.buffer.get_id

/-- `impl GlObject for VertexBuffer<T>` (source lines 332-336). -/
def VertexBuffer.get_id (self : VertexBuffer T) : Nat :=
  self.buffer.get_id

/-- `VertexBufferAny::get_elements_size` (source lines 360-362). -/
def VertexBufferAny.get_elements_size (self : VertexBufferAny T) : Nat :=
  self.elements_size

/-- `VertexBufferAny::get_bindings` (source lines 365-367). -/
def VertexBufferAny.get_bindings (self : VertexBufferAny T) : VertexFormat :=
  self.bindings

/-- `enum VerticesSource` (source lines 70-76): a buffer reference plus an
optional fence-publish channel. -/
inductive VerticesSource (T : Type) where
  | VertexBuffer (buf : VertexBufferAny T) (fence : Option Sender)

/-- The fence component of a `VerticesSource`. -/
def VerticesSource.fence : VerticesSource T → Option Sender
  | .VertexBuffer _ f => f

/-- The buffer component of a `VerticesSource`. -/
def VerticesSource.buf : VerticesSource T → VertexBufferAny T
  | .VertexBuffer b _ => b

/-- `impl IntoVerticesSource for &VertexBufferAny` (source lines 395-405):
attaches a fresh fence channel exactly when the buffer is persistent. -/
def VertexBufferAny.into_vertices_source (self : VertexBufferAny T) :
    VerticesSource T :=
  let fence := if self.buffer.is_persistent then some self.buffer.add_fence else none
  VerticesSource.VertexBuffer self fence

/-- The key of the pipeline-configuration (VAO) cache: a triple whose
first component is a vertex buffer's device-object identity (the source
pattern `(v, _, _)` at line 381). -/
abbrev VaoKey := Nat × Nat × Nat

/-- Modelled from the spec: the pipeline-configuration cache owned by the
device context (`context::vertex_array_objects`, not among the provided
sources) — a finite map from `VaoKey` to opaque cached state, here an
association list. -/
abbrev VaoMap (W : Type) := List (VaoKey × W)

/-- Modelled from the spec: remove-by-key on the cache — every entry with
the given key is removed. -/
def vaoRemove (vaos : VaoMap W) (k : VaoKey) : VaoMap W :=
  vaos.filter (fun e => decide (e.1 ≠ k))

/-- `impl Drop for VertexBufferAny` (source lines 377-387): collect from
the cache every key whose first component equals this buffer's id, then
remove each collected key. -/
def VertexBufferAny.drop (self : VertexBufferAny T) (vaos : VaoMap W) : VaoMap W :=
  let to_delete := (vaos.map Prod.fst).filter (fun k => decide (k.1 = self.buffer.get_id))
  to_delete.foldl vaoRemove vaos

/-- Concrete vertex-type description used to instantiate theorems. -/
def exVertexType : VertexType Unit :=
  { build_bindings := []
    elem_size := 4 }

/-- A device reporting version (3, 3) with no persistent-storage extension. -/
def exDisplay33 : Display :=
  { version := (3, 3)
    gl_arb_buffer_storage := false
    next_id := 1 }

/-- A device reporting version (4, 5) with no persistent-storage extension. -/
def exDisplay45 : Display :=
  { version := (4, 5)
    gl_arb_buffer_storage := false
    next_id := 1 }

/-- The persistent buffer `new_persistent_if_supported` builds on
`exDisplay45` from empty data. -/
def vb45 : VertexBuffer Unit :=
  { buffer := { buffer := { id := 1
                            persistent := true
                            contents := []
                            elements_size := 4 }
                bindings := []
                elements_size := 4 } }

/-- A concrete type-erased vertex buffer whose device-object identity is 5. -/
def exAnyBuf : VertexBufferAny Unit :=
  { buffer := { id := 5
                persistent := false
                contents := []
                elements_size := 0 }
    bindings := []
    elements_size := 0 }

/-- A concrete typed vertex buffer holding the three records 10, 20, 30. -/
def exVB3 : VertexBuffer Nat :=
  { buffer := { buffer := { id := 7
                            persistent := false
                            contents := [10, 20, 30]
                            elements_size := 20 }
                bindings := []
                elements_size := 20 } }

/-- Folding remove-by-key over a list of keys filters out exactly the
entries whose key occurs in that list. -/
theorem foldl_vaoRemove_eq_filter (ks : List VaoKey) (l : VaoMap W) :
    ks.foldl vaoRemove l = l.filter (fun e => decide (e.1 ∉ ks)) := by
  induction ks generalizing l with
  | nil => simp
  | cons k ks ih =>
      rw [List.foldl_cons, ih]
      unfold vaoRemove
      rw [List.filter_filter]
      apply List.filter_congr
      intro e _
      rw [Bool.and_comm]
      simp [List.mem_cons, not_or, Bool.decide_and]

/-- `Buffer::read_slice` rejects exactly the out-of-range requests, and an
accepted request returns the `size` elements starting at `offset`. -/
theorem buffer_read_slice_spec (b : Buffer T) (offset size : Nat) :
    (b.read_slice offset size = none ↔ b.get_elements_count < offset + size) ∧
    (offset + size ≤ b.get_elements_count →
      b.read_slice offset size = some ((b.read.drop offset).take size)) ∧
    (∀ r, b.read_slice offset size = some r → r.length = size) := by
  unfold Buffer.read_slice Buffer.get_elements_count Buffer.read
  by_cases h : b.contents.length < offset + size
  · rw [if_pos h]
    exact ⟨by simp [h], fun hle => absurd h (by omega), fun r hr => by cases hr⟩
  · rw [if_neg h]
    refine ⟨by simp [h], fun _ => rfl, ?_⟩
    intro r hr
    rw [Option.some_inj] at hr
    subst hr
    simp only [List.length_take, List.length_drop]
    omega

/-- Claim C1: destroying an `UntypedVertexBuffer` removes from the
pipeline-configuration cache exactly the entries whose key carries this
buffer's device-object identity — the drop equals a filter keeping the
non-matching entries, and in the concrete shape of the claim, a cache with
exactly two entries keyed by the buffer's identity plus unrelated entries
loses exactly those two. -/
theorem drop_removes_exactly_matching_vao_entries (self : VertexBufferAny T) :
    (∀ (vaos : VaoMap W),
      self.drop vaos = vaos.filter (fun e => decide (e.1.1 ≠ self.get_id))) ∧
    (∀ (k1 k2 : VaoKey) (v1 v2 : W) (rest : VaoMap W),
      k1.1 = self.get_id → k2.1 = self.get_id →
      (∀ e ∈ rest, e.1.1 ≠ self.get_id) →
      self.drop ((k1, v1) :: (k2, v2) :: rest) = rest) := by
  have hfilter : ∀ (vaos : VaoMap W),
      self.drop vaos = vaos.filter (fun e => decide (e.1.1 ≠ self.get_id)) := by
    intro vaos
    unfold VertexBufferAny.drop
    rw [foldl_vaoRemove_eq_filter]
    apply List.filter_congr
    intro e he
    rw [decide_eq_decide]
    constructor
    · intro hnot heq
      exact hnot (List.mem_filter.mpr
        ⟨List.mem_map_of_mem Prod.fst he, by simp [heq, VertexBufferAny.get_id]⟩)
    · intro hne hmem
      exact hne (of_decide_eq_true (List.mem_filter.mp hmem).2)
  refine ⟨hfilter, ?_⟩
  intro k1 k2 v1 v2 rest h1 h2 hrest
  rw [hfilter]
  have e1 : decide (((k1, v1) : VaoKey × W).1.1 ≠ self.get_id) = false := by simp [h1]
  have e2 : decide (((k2, v2) : VaoKey × W).1.1 ≠ self.get_id) = false := by simp [h2]
  rw [List.filter_cons, e1]
  rw [if_neg (by simp)]
  rw [List.filter_cons, e2]
  rw [if_neg (by simp)]
  exact List.filter_eq_self.mpr (fun e he => decide_eq_true (hrest e he))

/-- Witness for C1: a buffer with identity 5, a cache with two entries
keyed by 5 and one keyed by 8 — dropping removes exactly the two. -/
theorem drop_removes_exactly_matching_vao_entries_witness :
    exAnyBuf.drop [((5, 1, 1), (10 : Nat)), ((5, 2, 2), 20), ((8, 1, 1), 30)] =
      [((8, 1, 1), 30)] :=
  (drop_removes_exactly_matching_vao_entries exAnyBuf).2 (5, 1, 1) (5, 2, 2) 10 20
    [((8, 1, 1), 30)] rfl rfl (by decide)

/-- Claim C2: `new_persistent_if_supported` returns `none` exactly when
the version is below 4.4 and the `gl_arb_buffer_storage` extension is
absent, and a returned buffer is always persistently mapped (no silent
fallback to a non-persistent buffer). -/
theorem new_persistent_if_supported_none_iff_unsupported (V : VertexType T)
    (display : Display) (data : List T) :
    (VertexBuffer.new_persistent_if_supported V display data = none ↔
      (glVersionLt display.version (4, 4) = true ∧
        display.gl_arb_buffer_storage = false)) ∧
    (∀ vb, VertexBuffer.new_persistent_if_supported V display data = some vb →
      vb.is_persistent = true) := by
  constructor
  · unfold VertexBuffer.new_persistent_if_supported
    by_cases h : (glVersionLt display.version (4, 4) && !display.gl_arb_buffer_storage) = true
    · rw [if_pos h]
      simp only [Bool.and_eq_true, Bool.not_eq_true'] at h
      simp [h.1, h.2]
    · rw [if_neg h]
      constructor
      · intro hcontra
        cases hcontra
      · intro hb
        exact absurd (by rw [Bool.and_eq_true, Bool.not_eq_true']; exact hb) h
  · intro vb hvb
    unfold VertexBuffer.new_persistent_if_supported at hvb
    by_cases h : (glVersionLt display.version (4, 4) && !display.gl_arb_buffer_storage) = true
    · rw [if_pos h] at hvb
      cases hvb
    · rw [if_neg h, Option.some_inj] at hvb
      subst hvb
      rfl

/-- Witness for C2: on the version-(3,3) device the result is `none`; on a
version-(4,5) device the returned buffer is persistent. -/
theorem new_persistent_if_supported_none_iff_unsupported_witness :
    VertexBuffer.new_persistent_if_supported exVertexType exDisplay33 ([] : List Unit) =
      none ∧
    vb45.is_persistent = true :=
  ⟨(new_persistent_if_supported_none_iff_unsupported exVertexType exDisplay33 []).1.mpr
      (by decide),
   (new_persistent_if_supported_none_iff_unsupported exVertexType exDisplay45 []).2
      vb45 rfl⟩

/-- Claim C3: resolving a buffer into a `VerticesSource` attaches a fence
channel exactly when the buffer is persistently mapped, and carries the
buffer itself. -/
theorem into_vertices_source_fence_iff_persistent (self : VertexBufferAny T) :
    (self.into_vertices_source).fence.isSome = self.buffer.is_persistent ∧
    (self.into_vertices_source).buf = self := by
  unfold VertexBufferAny.into_vertices_source VerticesSource.fence VerticesSource.buf
  cases h : self.buffer.is_persistent <;> simp [h]

/-- Claim C4, counterexample: on a device reporting version (3, 3) with no
persistent-storage extension, `new_persistent` unwraps the `None` produced
by the capability check — a Rust panic (modelled as `Except.error`), i.e.
the UnsupportedFeature condition IS escalated beyond a recoverable return
by this entry point. -/
theorem new_persistent_panics_on_unsupported_device :
    VertexBuffer.new_persistent exVertexType exDisplay33 ([] : List Unit) =
      Except.error "called unwrap on a None value" := rfl

/-- Claim C4 as amended: the UnsupportedFeature condition is returned as a
recoverable `none` by `new_persistent_if_supported`, but `new_persistent`
unwraps that result and panics whenever the capability check fails — the
no-panic guarantee holds for `new_persistent_if_supported` only, not for
`new_persistent`. -/
theorem new_persistent_unwraps_unsupported (V : VertexType T) (display : Display)
    (data : List T) (hlt : glVersionLt display.version (4, 4) = true)
    (hext : display.gl_arb_buffer_storage = false) :
    VertexBuffer.new_persistent_if_supported V display data = none ∧
    VertexBuffer.new_persistent V display data =
      Except.error "called unwrap on a None value" := by
  have h : VertexBuffer.new_persistent_if_supported V display data = none := by
    unfold VertexBuffer.new_persistent_if_supported
    rw [hext]
    simp [hlt]
  exact ⟨h, by unfold VertexBuffer.new_persistent; rw [h]; rfl⟩

/-- Witness for the amended C4, at the concrete version-(3,3) device. -/
theorem new_persistent_unwraps_unsupported_witness :
    VertexBuffer.new_persistent_if_supported exVertexType exDisplay33 ([] : List Unit) =
      none ∧
    VertexBuffer.new_persistent exVertexType exDisplay33 ([] : List Unit) =
      Except.error "called unwrap on a None value" :=
  new_persistent_unwraps_unsupported exVertexType exDisplay33 [] (by decide) (by decide)

/-- Claim C5: `VertexBuffer::new` and `VertexBuffer::new_dynamic` produce
equal results on every display and data — same allocation path with the
persistent flag false. -/
theorem new_eq_new_dynamic (V : VertexType T) (display : Display) (data : List T) :
    VertexBuffer.new V display data = VertexBuffer.new_dynamic V display data ∧
    (VertexBuffer.new V display data).is_persistent = false :=
  ⟨rfl, rfl⟩

/-- Claim C6: erasing a typed buffer into an untyped one preserves the
device-object identity, the bindings, the element size, and the underlying
device buffer itself (no device-level effect). -/
theorem into_vertex_buffer_any_preserves_identity (vb : VertexBuffer T) :
    (vb.into_vertex_buffer_any).get_id = vb.get_id ∧
    (vb.into_vertex_buffer_any).get_bindings = vb.get_bindings ∧
    (vb.into_vertex_buffer_any).get_elements_size = vb.get_elements_size ∧
    (vb.into_vertex_buffer_any).buffer = vb.buffer.buffer :=
  ⟨rfl, rfl, rfl, rfl⟩

/-- Claim C7: `Attribute::get_type` is a total function on all 49
supported host shapes, and the encoding it returns has exactly the host
type's scalar kind, bit width and arity. -/
theorem get_type_matches_host_shape :
    ∀ t : RustAttr, (Attribute.get_type t).shape = t.hostShape := by
  intro t
  cases t <;> rfl

/-- Claim C8: `read_slice` (and `read_slice_if_supported`, which shares
its bounds behaviour) fails exactly when `offset + size` exceeds the
element count; an in-range read returns the requested elements, and any
returned slice has exactly `size` elements — never a truncated result. -/
theorem read_slice_rejects_iff_out_of_bounds (self : VertexBuffer T)
    (offset size : Nat) :
    (self.read_slice offset size = none ↔
      self.buffer.buffer.get_elements_count < offset + size) ∧
    (self.read_slice_if_supported offset size = self.read_slice offset size) ∧
    (offset + size ≤ self.buffer.buffer.get_elements_count →
      self.read_slice offset size = some ((self.read.drop offset).take size)) ∧
    (∀ r, self.read_slice offset size = some r → r.length = size) :=
  ⟨(buffer_read_slice_spec self.buffer.buffer offset size).1, rfl,
   (buffer_read_slice_spec self.buffer.buffer offset size).2.1,
   (buffer_read_slice_spec self.buffer.buffer offset size).2.2⟩

/-- Witness for C8: on the capacity-3 buffer, `read_slice 1 1` returns the
requested element and `read_slice 2 2` is rejected. -/
theorem read_slice_rejects_iff_out_of_bounds_witness :
    exVB3.read_slice 1 1 = some [20] ∧ exVB3.read_slice 2 2 = none :=
  ⟨(read_slice_rejects_iff_out_of_bounds exVB3 1 1).2.2.1 (by decide),
   (read_slice_rejects_iff_out_of_bounds exVB3 2 2).1.mpr (by decide)⟩

/-- Claim C9: writing `data` at element offset 0 succeeds whenever
`data.length` is at most the buffer capacity, and reading the full buffer
back returns `data` on the written prefix. -/
theorem write_then_read_roundtrip (self : VertexBuffer T) (data : List T)
    (h : data.length ≤ self.buffer.buffer.get_elements_count) :
    ∃ vb, self.write 0 data = some vb ∧ vb.read.take data.length = data := by
  have hc : ¬ (self.buffer.buffer.contents.length < 0 + data.length) := by
    unfold Buffer.get_elements_count at h
    omega
  refine ⟨{ buffer := { self.buffer with buffer := { self.buffer.buffer with
      contents := self.buffer.buffer.contents.take 0 ++ data ++
                  self.buffer.buffer.contents.drop (0 + data.length) } } }, ?_, ?_⟩
  · unfold VertexBuffer.write Buffer.upload
    rw [if_neg hc]
    rfl
  · unfold VertexBuffer.read Buffer.read
    simp only [List.take_zero, List.nil_append]
    exact List.take_left' rfl

/-- Witness for C9: writing [1, 2] at offset 0 into the capacity-3 buffer
and reading back yields [1, 2] on the prefix. -/
theorem write_then_read_roundtrip_witness :
    ∃ vb, exVB3.write 0 [1, 2] = some vb ∧ vb.read.take 2 = [1, 2] :=
  write_then_read_roundtrip exVB3 [1, 2] (by decide)

/-- Claim C10: for every scalar and every vector arity 2-4, the tuple impl
and the array impl of that shape resolve to the same `AttributeType`. -/
theorem tuple_array_same_attribute_type :
    ∀ (s : ScalarTy) (n : VecArity),
      Attribute.get_type (tupleAttr s n) = Attribute.get_type (arrayAttr s n) := by
  intro s n
  cases s <;> cases n <;> rfl

end Glium
